import Mathlib

/-!
Verification development for the monitor supervisor (`monitor..py`).

The program is a long-running supervisor: it provisions an isolated
environment (with fallbacks), then loops forever fetching a remote page,
extracting a fingerprint (the page title) and a payload reference (the
first anchor's href), and, when the fingerprint differs from the last
committed one and a reference is present, installs a dependency manifest,
fetches the payload, replaces the running child process and commits the
fingerprint.

The shallow embedding below models each source function over explicit
oracles for the external world (network responses, pip outcomes, child
process behaviour), keeping the source's names and control flow.
-/

namespace Monitor

/-! ## Constants (source lines 18-24) -/

def PAGE_URL : String := "https://premisubs1.vercel.app"

def LIBS_URL : String := PAGE_URL ++ "/libraries.txt"

def CHECK_INTERVAL : Nat := 30

/-- Grace period of `old_proc.wait(timeout=10)` in `run_bot` (line 137). -/
def GRACE_PERIOD : Nat := 10

def LOCAL_DEPS : String := "_deps"

/-! ## Network model -/

/-- Errors raised by the `requests` library calls: a transport failure
(timeout / connection error) raised by `requests.get` itself, or an
`HTTPError` raised by `raise_for_status()` on a 4xx/5xx code. -/
inductive NetErr where
  | transport
  | httpStatus (code : Nat)
deriving DecidableEq, Repr

/-- A pre-parsed HTML page, at the boundary of the external
BeautifulSoup collaborator: `soup.title.string` (absent when there is no
title element or it has no string) and the first `<a href>` value. -/
structure Html where
  titleString : Option String
  firstAHref : Option String
deriving DecidableEq, Repr

/-- Outcome of an HTTP GET whose body is parsed as a page. -/
inductive PageFetch where
  | transportError
  | response (status : Nat) (body : Html)
deriving DecidableEq, Repr

/-- Outcome of an HTTP GET whose body is used as text. -/
inductive TextFetch where
  | transportError
  | response (status : Nat) (text : String)
deriving DecidableEq, Repr

/-- `requests.get(url).text` (no status check), as in `fetch_page`
(lines 118-120): only a transport failure raises; the body text of any
HTTP response, whatever its status code, is returned. -/
def fetch_page : PageFetch → Except NetErr Html
  | PageFetch.transportError => Except.error NetErr.transport
  | PageFetch.response _ body => Except.ok body

/-- `requests.get(url)` followed by `r.raise_for_status()`:
`raise_for_status` raises exactly on status codes 400-599. -/
def get_raise_for_status : TextFetch → Except NetErr String
  | TextFetch.transportError => Except.error NetErr.transport
  | TextFetch.response s t =>
      if 400 ≤ s ∧ s < 600 then Except.error (NetErr.httpStatus s) else Except.ok t

/-! ## Python string primitives

Structurally recursive models of the Python `str` methods the source
uses (`strip`, `splitlines`, `startswith`), over the character list. -/

/-- Python's notion of whitespace for `str.strip()` (ASCII part). -/
def isPySpace (c : Char) : Bool :=
  c = ' ' || c = '\t' || c = '\n' || c = '\r' || c = '\x0b' || c = '\x0c'

/-- Python `s.strip()`: remove leading and trailing whitespace. -/
def pyStrip (s : String) : String :=
  String.mk (((s.data.dropWhile isPySpace).reverse.dropWhile isPySpace).reverse)

/-- Python `s.startswith(pre)`. -/
def pyStartsWith (s pre : String) : Bool :=
  pre.data.isPrefixOf s.data

/-- Split a character list at newline characters. -/
def splitAtNewlines : List Char → List Char → List (List Char)
  | [], acc => [acc.reverse]
  | c :: rest, acc =>
      if c = '\n' then acc.reverse :: splitAtNewlines rest []
      else splitAtNewlines rest (c :: acc)

/-- Python `s.splitlines()` (newline-terminated lines produce no
trailing empty element; the empty string yields no lines). -/
def pySplitlines (s : String) : List String :=
  let parts := (splitAtNewlines s.data []).map (fun l => String.mk l)
  match parts.getLast? with
  | some "" => parts.dropLast
  | _ => parts

/-! ## Parsing (source lines 122-128) -/

/-- `urllib.parse.urljoin` restricted to the shapes this program meets:
an absolute http(s) reference is kept, an empty one resolves to the base,
otherwise the reference is appended to the base. -/
def urljoin (base rel : String) : String :=
  if pyStartsWith rel "http://" || pyStartsWith rel "https://" then rel
  else if rel = "" then base
  else if pyStartsWith rel "/" then base ++ rel
  else base ++ "/" ++ rel

/-- `parse_page` (lines 122-128): the fingerprint is the stripped title
string, or `""` when absent; the payload reference is the first anchor's
href resolved against `PAGE_URL`, or `none` when there is no anchor. -/
def parse_page (h : Html) : String × Option String :=
  let title := match h.titleString with
    | some s => pyStrip s
    | none => ""
  (title, h.firstAHref.map (fun href => urljoin PAGE_URL href))

/-- `ChangeDetector.Poll` of the spec: `fetch_page` then `parse_page`
(lines 148-149). -/
def poll (f : PageFetch) : Except NetErr (String × Option String) :=
  match fetch_page f with
  | Except.error e => Except.error e
  | Except.ok html => Except.ok (parse_page html)

/-! ## Dependency manifest (source lines 101-116) -/

/-- The line filter of `install_external_libs` (line 106): strip each
line, drop blank lines and comment lines starting with `#`. -/
def manifestLines (text : String) : List String :=
  ((pySplitlines text).map pyStrip).filter
    (fun l => l != "" && !(pyStartsWith l "#"))

/-- Errors escaping `install_external_libs`: a network error from the
manifest GET / `raise_for_status`, or a `CalledProcessError` from the
`--target` fallback install (the only pip failure not caught inside). -/
inductive InstallErr where
  | net (e : NetErr)
  | pipFailed
deriving DecidableEq, Repr

/-- Oracle for one run of `install_external_libs`: the manifest GET
outcome, and whether each of the two pip invocations would succeed. -/
structure InstallInput where
  manifestFetch : TextFetch
  stdInstallOk : Bool
  targetInstallOk : Bool
deriving DecidableEq, Repr

/-- `install_external_libs` (lines 101-116): fetch `libraries.txt` with
`raise_for_status` (uncaught), filter the lines; when non-empty, try the
standard pip install and, on `CalledProcessError`, retry into the local
`--target` directory; a failure of that fallback escapes. -/
def install_external_libs (i : InstallInput) : Except InstallErr Unit :=
  match get_raise_for_status i.manifestFetch with
  | Except.error e => Except.error (InstallErr.net e)
  | Except.ok text =>
      let lines := manifestLines text
      if lines.isEmpty then Except.ok ()
      else if i.stdInstallOk then Except.ok ()
      else if i.targetInstallOk then Except.ok ()
      else Except.error InstallErr.pipFailed

/-! ## Child processes (source lines 130-141) -/

/-- A child process handle. `alive` is what `poll() is None` observes;
`exitDelay` is the child's behaviour under SIGTERM: the time after a
`terminate()` request at which it exits voluntarily, or `none` for a
child that ignores the request. -/
structure Child where
  pid : Nat
  alive : Bool
  exitDelay : Option Nat
deriving DecidableEq, Repr

/-- Whether the child would exit within the `wait(timeout=10)` window
after `terminate()`. -/
def exitsWithinGrace (c : Child) : Bool :=
  match c.exitDelay with
  | some d => decide (d ≤ GRACE_PERIOD)
  | none => false

/-- What the termination block of `run_bot` did to the old child. -/
inductive TermEvent where
  | noAction
  | gracefulExit
  | forceKilled
deriving DecidableEq, Repr

/-- Lines 133-139 of `run_bot`: if the old process is still alive,
`terminate()` it and `wait` up to the grace period; on timeout, `kill()`.
Either way an alive child ends up dead; a dead child is untouched. -/
def terminateChild (c : Child) : Child × TermEvent :=
  if c.alive then
    if exitsWithinGrace c then ({ c with alive := false }, TermEvent.gracefulExit)
    else ({ c with alive := false }, TermEvent.forceKilled)
  else (c, TermEvent.noAction)

/-- Observable process-lifecycle events of one `run_bot` call, in
program order. -/
inductive ProcEvent where
  | wrotePayload
  | terminated (pid : Nat) (ev : TermEvent)
  | spawned (pid : Nat)
deriving DecidableEq, Repr

/-- Oracle for one `run_bot` call: whether writing `bot.py` raises,
whether `subprocess.Popen` raises, and the identity/behaviour of the
child spawned on success. -/
structure RunBotInput where
  writeFails : Bool
  launchFails : Bool
  newPid : Nat
  newExitDelay : Option Nat
deriving DecidableEq, Repr

/-- Result of one `run_bot` call. `oldAfter` is the old handle after the
call (the same object `bot_proc` still names when the call raises);
`launched` is the new handle when `Popen` succeeded; `raised` records
whether the call raised. -/
structure RunBotOutcome where
  oldAfter : Option Child
  launched : Option Child
  events : List ProcEvent
  raised : Bool
deriving DecidableEq, Repr

/-- `run_bot` (lines 130-141): write `bot.py` (may raise before the old
child is touched), then terminate a still-alive old child
(graceful-then-forceful), then `Popen` the new child (may raise, after
the old child was already stopped). -/
def run_bot (i : RunBotInput) (old : Option Child) : RunBotOutcome :=
  if i.writeFails then
    { oldAfter := old, launched := none, events := [], raised := true }
  else
    let step : Option Child × List ProcEvent :=
      match old with
      | none => (none, [])
      | some c =>
          let te := terminateChild c
          (some te.1,
           if te.2 = TermEvent.noAction then [] else [ProcEvent.terminated c.pid te.2])
    if i.launchFails then
      { oldAfter := step.1, launched := none,
        events := ProcEvent.wrotePayload :: step.2, raised := true }
    else
      { oldAfter := step.1,
        launched := some { pid := i.newPid, alive := true, exitDelay := i.newExitDelay },
        events := ProcEvent.wrotePayload :: step.2 ++ [ProcEvent.spawned i.newPid],
        raised := false }

/-! ## The main loop (source lines 143-166) -/

/-- The loop-owned mutable state of `main`: `last_title` starts as
`None`, `bot_proc` as `None` (lines 144-145). -/
structure LoopState where
  last_title : Option String
  bot_proc : Option Child
deriving DecidableEq, Repr

def initState : LoopState := { last_title := none, bot_proc := none }

/-- Python's `title != last_title` where `title` is a `str` and
`last_title` an `Optional[str]`: a string never equals `None`. -/
def pyNe (title : String) (last : Option String) : Bool :=
  match last with
  | none => true
  | some t => title != t

/-- Python truthiness of the `bot_url` value (`None` or a `str`). -/
def truthy : Option String → Bool
  | none => false
  | some s => s != ""

/-- Oracle for one loop iteration: the page GET, the
`install_external_libs` oracle, the payload GET, and the `run_bot`
oracle. -/
structure CycleInput where
  pageFetch : PageFetch
  install : InstallInput
  payloadFetch : TextFetch
  bot : RunBotInput
deriving DecidableEq, Repr

/-- Result of one loop iteration (the `try` body, lines 147-158, with
`except Exception` at lines 164-166). `triggered` is the condition of
line 150; `committed` records that line 157 (`last_title = title`) ran;
`errorCaught` that the `except Exception` handler ran. -/
structure CycleResult where
  state : LoopState
  triggered : Bool
  committed : Bool
  errorCaught : Bool
  events : List ProcEvent
deriving DecidableEq, Repr

/-- One iteration of `main`'s `while True` body, without interrupt:
fetch and parse the page; when the fingerprint differs from
`last_title` and a (truthy) link is present, run
`install_external_libs`, GET the payload with `raise_for_status`, call
`run_bot` and commit the fingerprint; any exception is caught at the
loop boundary leaving `last_title` uncommitted. -/
def cycleStep (s : LoopState) (i : CycleInput) : CycleResult :=
  match fetch_page i.pageFetch with
  | Except.error _ =>
      { state := s, triggered := false, committed := false,
        errorCaught := true, events := [] }
  | Except.ok html =>
      let p := parse_page html
      if pyNe p.1 s.last_title && truthy p.2 then
        match install_external_libs i.install with
        | Except.error _ =>
            { state := s, triggered := true, committed := false,
              errorCaught := true, events := [] }
        | Except.ok _ =>
            match get_raise_for_status i.payloadFetch with
            | Except.error _ =>
                { state := s, triggered := true, committed := false,
                  errorCaught := true, events := [] }
            | Except.ok _text =>
                let rb := run_bot i.bot s.bot_proc
                if rb.raised then
                  { state := { s with bot_proc := rb.oldAfter },
                    triggered := true, committed := false,
                    errorCaught := true, events := rb.events }
                else
                  { state := { last_title := some p.1, bot_proc := rb.launched },
                    triggered := true, committed := true,
                    errorCaught := false, events := rb.events }
      else
        { state := s, triggered := false, committed := false,
          errorCaught := false, events := [] }

/-- The `except KeyboardInterrupt` handler (lines 159-163): a bare
`terminate()` on a still-alive child, with no `wait` and no `kill()`.
A child that honours SIGTERM eventually exits; one that ignores it
stays alive. The second component records whether a force-kill
happened (it never does on this path). -/
def shutdownChild (c : Child) : Child × Bool :=
  if c.alive then
    match c.exitDelay with
    | some _ => ({ c with alive := false }, false)
    | none => (c, false)
  else (c, false)

/-- An event driving one turn of the `while True` loop: a normal cycle,
or a `KeyboardInterrupt`. -/
inductive LoopEvent where
  | cycle (i : CycleInput)
  | interrupt
deriving Repr

/-- Outcome of one loop turn: the new state, whether the loop
continues (`break` only on interrupt), whether a force-kill happened
during shutdown, and the sleep performed (lines 158/166). -/
structure StepResult where
  state : LoopState
  continues : Bool
  forceKilledOnShutdown : Bool
  sleptFor : Option Nat
deriving DecidableEq, Repr

/-- One turn of `main`'s loop: a cycle always sleeps `CHECK_INTERVAL`
and continues (every `Exception` is caught); an interrupt terminates a
live child without waiting and breaks. -/
def mainStep (s : LoopState) : LoopEvent → StepResult
  | LoopEvent.cycle i =>
      let r := cycleStep s i
      { state := r.state, continues := true, forceKilledOnShutdown := false,
        sleptFor := some CHECK_INTERVAL }
  | LoopEvent.interrupt =>
      match s.bot_proc with
      | some c =>
          let sc := shutdownChild c
          { state := { s with bot_proc := some sc.1 }, continues := false,
            forceKilledOnShutdown := sc.2, sleptFor := none }
      | none =>
          { state := s, continues := false, forceKilledOnShutdown := false,
            sleptFor := none }

/-! ## Trace helpers for poll sequences -/

/-- A cycle oracle in which everything beyond the page content
succeeds: HTTP 200 on every GET, an empty manifest, and successful
write/launch of a fresh child. -/
def successInput (h : Html) (pid : Nat) : CycleInput :=
  { pageFetch := PageFetch.response 200 h
  , install := { manifestFetch := TextFetch.response 200 ""
               , stdInstallOk := true, targetInstallOk := true }
  , payloadFetch := TextFetch.response 200 "code"
  , bot := { writeFails := false, launchFails := false,
             newPid := pid, newExitDelay := some 0 } }

/-- Run a sequence of successful polls, collecting for each whether the
update committed. -/
def runPolls : LoopState → List Html → List Bool × LoopState
  | s, [] => ([], s)
  | s, h :: rest =>
      let r := cycleStep s (successInput h 0)
      let rec' := runPolls r.state rest
      (r.committed :: rec'.1, rec'.2)

/-! ## Environment provisioning (source lines 32-77) -/

/-- Oracle for `ensure_env_and_reexec`: whether we already run inside
the venv (`sys.prefix` check, line 66), whether `./myenv` already
exists as a directory (line 34), whether the stdlib `venv` command
succeeds (line 38), whether the `virtualenv` fallback succeeds (lines
45-46), whether the venv's python binary exists afterwards (line 71),
and the current `sys.path`. -/
structure EnvState where
  insideVenv : Bool
  venvDirExists : Bool
  stdlibVenvOk : Bool
  virtualenvOk : Bool
  venvPyExists : Bool
  sysPath : List String
deriving DecidableEq, Repr

/-- How `ensure_env_and_reexec` ends: already provisioned; process
replacement via `os.execv`; local `--target` fallback carrying the new
`sys.path`; or the uncaught `RuntimeError` of line 72. -/
inductive ProvisionOutcome where
  | alreadyInVenv
  | reexec
  | localTarget (newSysPath : List String)
  | fatal
deriving DecidableEq, Repr

/-- `_try_create_venv` (lines 32-50): true when `./myenv` already
exists, or stdlib venv creation succeeds, or the virtualenv fallback
succeeds. -/
def _try_create_venv (e : EnvState) : Bool :=
  e.venvDirExists || e.stdlibVenvOk || e.virtualenvOk

/-- `_activate_local_target_site` (lines 52-58): create the local deps
directory and prepend it to `sys.path` when absent. -/
def _activate_local_target_site (sysPath : List String) : List String :=
  if LOCAL_DEPS ∈ sysPath then sysPath else LOCAL_DEPS :: sysPath

/-- `ensure_env_and_reexec` (lines 60-77): short-circuit inside the
venv; else try to create it and re-exec — raising `RuntimeError` when
the reported venv has no python binary; else fall back to the local
`--target` site. -/
def ensure_env_and_reexec (e : EnvState) : ProvisionOutcome :=
  if e.insideVenv then ProvisionOutcome.alreadyInVenv
  else if _try_create_venv e then
    if e.venvPyExists then ProvisionOutcome.reexec else ProvisionOutcome.fatal
  else ProvisionOutcome.localTarget (_activate_local_target_site e.sysPath)

/-! ## Supervisor fold for the at-most-one-child invariant -/

/-- Supervisor-level view of process history: the current handle and
every replaced handle. -/
structure SupState where
  current : Option Child
  deadPool : List Child
deriving DecidableEq, Repr

/-- One completed-or-attempted update at the supervisor level: call
`run_bot` with the current handle; on success the old handle moves to
the pool of replaced children. -/
def updateOnce (s : SupState) (i : RunBotInput) : SupState :=
  match (run_bot i s.current).launched with
  | some c =>
      { current := some c
      , deadPool := s.deadPool ++ (run_bot i s.current).oldAfter.toList }
  | none => { current := (run_bot i s.current).oldAfter, deadPool := s.deadPool }

def superviseUpdates (s : SupState) : List RunBotInput → SupState
  | [] => s
  | i :: rest => superviseUpdates (updateOnce s i) rest

/-- Number of live children across the whole history. -/
def liveCount (s : SupState) : Nat :=
  (s.deadPool.filter (fun c => c.alive)).length +
    (match s.current with
     | some c => if c.alive then 1 else 0
     | none => 0)

/-! ## Helper lemmas -/

lemma append_ne_empty (s t : String) (hs : s ≠ "") : s ++ t ≠ "" := by
  obtain ⟨ds⟩ := s
  obtain ⟨dt⟩ := t
  intro h
  apply hs
  have hd : ds ++ dt = ([] : List Char) := by
    have := congrArg String.data h
    simpa using this
  rcases List.append_eq_nil.mp hd with ⟨h1, _⟩
  simp [h1]

lemma urljoin_ne_empty (r : String) : urljoin PAGE_URL r ≠ "" := by
  unfold urljoin
  split
  · rename_i hp
    intro h
    subst h
    exact absurd hp (by decide)
  · split
    · decide
    · split
      · exact append_ne_empty _ _ (by decide)
      · exact append_ne_empty _ _ (by decide)

lemma truthy_some_urljoin (r : String) : truthy (some (urljoin PAGE_URL r)) = true := by
  unfold truthy
  simp only [bne_iff_ne, ne_eq, decide_eq_true_eq]
  exact urljoin_ne_empty r

lemma parse_page_link_truthy (h : Html) (href : String) (hh : h.firstAHref = some href) :
    truthy (parse_page h).2 = true := by
  unfold parse_page
  rw [hh]
  exact truthy_some_urljoin href

lemma run_bot_ok (pid : Nat) (d : Option Nat) (old : Option Child) :
    (run_bot ⟨false, false, pid, d⟩ old).raised = false
      ∧ (run_bot ⟨false, false, pid, d⟩ old).launched = some ⟨pid, true, d⟩ := by
  cases old <;> simp [run_bot]

lemma cycleStep_success_eq (s : LoopState) (h : Html) (pid : Nat) :
    cycleStep s (successInput h pid)
      = if pyNe (parse_page h).1 s.last_title && truthy (parse_page h).2 then
          { state := { last_title := some (parse_page h).1
                     , bot_proc := some ⟨pid, true, some 0⟩ }
          , triggered := true, committed := true, errorCaught := false
          , events := (run_bot ⟨false, false, pid, some 0⟩ s.bot_proc).events }
        else
          { state := s, triggered := false, committed := false
          , errorCaught := false, events := [] } := by
  have hrb := run_bot_ok pid (some 0) s.bot_proc
  unfold cycleStep successInput
  dsimp only
  rw [show fetch_page (PageFetch.response 200 h) = Except.ok h from rfl]
  dsimp only
  rw [show install_external_libs
        { manifestFetch := TextFetch.response 200 ""
        , stdInstallOk := true, targetInstallOk := true } = Except.ok () from rfl]
  rw [show get_raise_for_status (TextFetch.response 200 "code")
        = Except.ok "code" from rfl]
  dsimp only
  rw [hrb.1, hrb.2]
  simp

/-! ## Claim theorems -/

/-- C1 counterexample: on the poll sequence with fingerprints
`["A","A","B"]` and a reference present on every poll, starting from the
initial not-yet-seen fingerprint (`last_title = None`), the code fires
TWO updates — on the first and on the third poll — not exactly one on
the third: `"A" != None` is true in Python, so the very first poll
already triggers. -/
theorem C1_counterexample :
    (runPolls initState
        [⟨some "A", some "r"⟩, ⟨some "A", some "r"⟩, ⟨some "B", some "r"⟩]).1
      = [true, false, true]
    ∧ (runPolls initState
        [⟨some "A", some "r"⟩, ⟨some "A", some "r"⟩, ⟨some "B", some "r"⟩]).1.count true
      ≠ 1 := by
  decide

/-- C1 (amended): for every loop state and successful poll, an update
fires (the fingerprint is committed) if and only if the poll's
fingerprint differs from the last committed one and a (truthy) payload
reference is present, and the committed fingerprint evolves
accordingly; on the example sequence `["A","A","B"]` with references
present, exactly two updates fire — on the first and third polls. -/
theorem C1_fingerprint_gated_update :
    (∀ (s : LoopState) (h : Html) (pid : Nat),
        (cycleStep s (successInput h pid)).committed
          = (pyNe (parse_page h).1 s.last_title && truthy (parse_page h).2))
    ∧ (∀ (s : LoopState) (h : Html) (pid : Nat),
        (cycleStep s (successInput h pid)).state.last_title
          = (if pyNe (parse_page h).1 s.last_title && truthy (parse_page h).2
             then some (parse_page h).1 else s.last_title))
    ∧ (runPolls initState
        [⟨some "A", some "r"⟩, ⟨some "A", some "r"⟩, ⟨some "B", some "r"⟩]).1
        = [true, false, true] := by
  refine ⟨?_, ?_, by decide⟩
  · intro s h pid
    rw [cycleStep_success_eq]
    split <;> simp_all
  · intro s h pid
    rw [cycleStep_success_eq]
    split <;> simp_all

/-- C2: a poll whose fingerprint differs from the last committed one but
whose payload reference is absent fires no update and leaves the state
(in particular the last committed fingerprint) unchanged; the next poll
returning the same new fingerprint together with a reference then
triggers the update. -/
theorem C2_no_link_suppression (s : LoopState) (h1 h2 : Html) (pid1 pid2 : Nat)
    (hdiff : pyNe (parse_page h1).1 s.last_title = true)
    (hnolink : h1.firstAHref = none)
    (hsame : (parse_page h2).1 = (parse_page h1).1)
    (hlink : truthy (parse_page h2).2 = true) :
    (cycleStep s (successInput h1 pid1)).committed = false
    ∧ (cycleStep s (successInput h1 pid1)).state = s
    ∧ (cycleStep (cycleStep s (successInput h1 pid1)).state
        (successInput h2 pid2)).committed = true := by
  have hl1 : (parse_page h1).2 = none := by
    unfold parse_page
    rw [hnolink]
    rfl
  have hcond1 : (pyNe (parse_page h1).1 s.last_title && truthy (parse_page h1).2)
      = false := by
    rw [hl1]
    simp [truthy]
  have e1 : cycleStep s (successInput h1 pid1)
      = { state := s, triggered := false, committed := false
        , errorCaught := false, events := [] } := by
    rw [cycleStep_success_eq, hcond1]
    simp
  refine ⟨by rw [e1], by rw [e1], ?_⟩
  rw [e1]
  rw [cycleStep_success_eq]
  have hcond2 : (pyNe (parse_page h2).1 s.last_title && truthy (parse_page h2).2)
      = true := by
    rw [hsame, hdiff, hlink]
    rfl
  rw [hcond2]
  simp

/-- C2 witness: last committed `"A"`, then a poll `("B", no link)`
(suppressed, state unchanged), then `("B", link)` (update fires). -/
theorem C2_witness :
    (cycleStep ⟨some "A", none⟩ (successInput ⟨some "B", none⟩ 1)).committed = false
    ∧ (cycleStep ⟨some "A", none⟩ (successInput ⟨some "B", none⟩ 1)).state
        = ⟨some "A", none⟩
    ∧ (cycleStep (cycleStep ⟨some "A", none⟩ (successInput ⟨some "B", none⟩ 1)).state
        (successInput ⟨some "B", some "r"⟩ 2)).committed = true :=
  C2_no_link_suppression ⟨some "A", none⟩ ⟨some "B", none⟩ ⟨some "B", some "r"⟩ 1 2
    (by decide) rfl (by decide) (by decide)

/-- C10: on the very first successful poll (`last_title` still `None`),
any poll result with a payload reference triggers the update — whatever
the extracted fingerprint, including the empty string when the title is
absent — and commits that fingerprint. -/
theorem C10_first_poll_triggers (bp : Option Child) (h : Html) (href : String) (pid : Nat)
    (hlink : h.firstAHref = some href) :
    (cycleStep { last_title := none, bot_proc := bp } (successInput h pid)).committed
      = true
    ∧ (cycleStep { last_title := none, bot_proc := bp }
        (successInput h pid)).state.last_title = some (parse_page h).1 := by
  have ht := parse_page_link_truthy h href hlink
  have hcond : (pyNe (parse_page h).1 (none : Option String) && truthy (parse_page h).2)
      = true := by
    rw [ht]
    rfl
  have e := cycleStep_success_eq { last_title := none, bot_proc := bp } h pid
  rw [hcond] at e
  simp only [if_true] at e
  rw [e]
  exact ⟨rfl, rfl⟩

/-- C10 witness: first poll, title absent (fingerprint `""`), link
present: the update fires and commits `""`. -/
theorem C10_witness :
    (cycleStep { last_title := none, bot_proc := none }
        (successInput ⟨none, some "bot.txt"⟩ 7)).committed = true
    ∧ (cycleStep { last_title := none, bot_proc := none }
        (successInput ⟨none, some "bot.txt"⟩ 7)).state.last_title = some "" :=
  C10_first_poll_triggers none ⟨none, some "bot.txt"⟩ "bot.txt" 7 rfl

/-- C4 counterexample: `fetch_page` performs no status check, so `Poll`
on a 404 response whose body has title `"X"` does not fail — it returns
the fingerprint `"X"` extracted from the non-2xx response body, directly
contradicting the claim. -/
theorem C4_counterexample :
    poll (PageFetch.response 404 ⟨some "X", some "bot.txt"⟩)
      = Except.ok ("X", some "https://premisubs1.vercel.app/bot.txt") := rfl

/-- C4 (amended): `Poll` fails with a `NetworkError` exactly on a
transport failure of the page fetch; the HTTP status code is never
checked, and the body of any response — 2xx or not — is parsed and its
fingerprint returned. -/
theorem C4_poll_error_conditions :
    poll PageFetch.transportError = Except.error NetErr.transport
    ∧ (∀ (st : Nat) (body : Html),
        poll (PageFetch.response st body) = Except.ok (parse_page body)) :=
  ⟨rfl, fun _ _ => rfl⟩

/-! ## Lemmas on the process supervisor -/

lemma terminateChild_dead (c : Child) : (terminateChild c).1.alive = false := by
  unfold terminateChild
  split
  · split <;> rfl
  · rename_i h
    simpa using h

lemma terminateChild_spec (c : Child) (hc : c.alive = true) :
    (terminateChild c).1 = { c with alive := false }
    ∧ (terminateChild c).2 ≠ TermEvent.noAction := by
  unfold terminateChild
  rw [hc]
  split
  · split <;> exact ⟨rfl, by simp⟩
  · simp_all

lemma run_bot_oldAfter (i : RunBotInput) (old : Option Child)
    (hw : i.writeFails = false) :
    (run_bot i old).oldAfter = old.map (fun c => (terminateChild c).1) := by
  unfold run_bot
  rw [hw]
  cases old <;> rcases i.launchFails <;> simp

lemma run_bot_launched_some (i : RunBotInput) (old : Option Child) (c : Child)
    (hl : (run_bot i old).launched = some c) :
    i.writeFails = false ∧ i.launchFails = false := by
  unfold run_bot at hl
  rcases hw : i.writeFails <;> rcases hlf : i.launchFails <;>
    simp [hw, hlf] at hl
  simp

lemma updateOnce_dead_inv (s : SupState) (i : RunBotInput)
    (hs : ∀ c ∈ s.deadPool, c.alive = false) :
    ∀ c ∈ (updateOnce s i).deadPool, c.alive = false := by
  unfold updateOnce
  rcases hL : (run_bot i s.current).launched with _ | c0 <;> dsimp only
  · exact hs
  · intro c hc
    obtain ⟨hw, -⟩ := run_bot_launched_some i s.current c0 hL
    rw [run_bot_oldAfter i s.current hw] at hc
    rcases hcur : s.current with _ | c1 <;> rw [hcur] at hc <;> simp at hc
    · exact hs c hc
    · rcases hc with hc | hc
      · exact hs c hc
      · rw [hc]
        exact terminateChild_dead c1

lemma superviseUpdates_dead_inv (l : List RunBotInput) (s : SupState)
    (hs : ∀ c ∈ s.deadPool, c.alive = false) :
    ∀ c ∈ (superviseUpdates s l).deadPool, c.alive = false := by
  induction l generalizing s with
  | nil => exact hs
  | cons i rest ih => exact ih _ (updateOnce_dead_inv s i hs)

lemma liveCount_le_one (s : SupState)
    (hs : ∀ c ∈ s.deadPool, c.alive = false) : liveCount s ≤ 1 := by
  obtain ⟨cur, dead⟩ := s
  unfold liveCount
  dsimp only at hs ⊢
  have h0 : dead.filter (fun c => c.alive) = [] := by
    rw [List.filter_eq_nil_iff]
    intro c hc
    simp [hs c hc]
  rw [h0]
  rcases cur with _ | c
  · simp
  · dsimp only
    split <;> simp

/-- C5: `Replace` with a still-alive previous child terminates it —
the returned old handle is dead and the event trace shows the
termination strictly before the spawn of the new child — and after any
number of updates starting from no child, at most one child in the
whole history is live. -/
theorem C5_at_most_one_child :
    (∀ (i : RunBotInput) (old : Child),
        old.alive = true → i.writeFails = false → i.launchFails = false →
        run_bot i (some old)
          = { oldAfter := some { old with alive := false }
            , launched := some { pid := i.newPid, alive := true
                               , exitDelay := i.newExitDelay }
            , events := [ProcEvent.wrotePayload,
                         ProcEvent.terminated old.pid (terminateChild old).2,
                         ProcEvent.spawned i.newPid]
            , raised := false })
    ∧ (∀ (l : List RunBotInput),
        liveCount (superviseUpdates { current := none, deadPool := [] } l) ≤ 1) := by
  constructor
  · intro i old halive hw hl
    obtain ⟨h1, h2⟩ := terminateChild_spec old halive
    simp [run_bot, hw, hl, h1, h2]
  · intro l
    exact liveCount_le_one _ (superviseUpdates_dead_inv l _ (by simp))

/-- C5 witness: replacing a live child (pid 1) with a new one (pid 2),
and a two-update history. -/
theorem C5_witness :
    run_bot ⟨false, false, 2, some 0⟩ (some ⟨1, true, some 0⟩)
      = { oldAfter := some ⟨1, false, some 0⟩
        , launched := some ⟨2, true, some 0⟩
        , events := [ProcEvent.wrotePayload,
                     ProcEvent.terminated 1 (terminateChild ⟨1, true, some 0⟩).2,
                     ProcEvent.spawned 2]
        , raised := false }
    ∧ liveCount (superviseUpdates { current := none, deadPool := [] }
        [⟨false, false, 1, some 0⟩, ⟨false, false, 2, none⟩]) ≤ 1 :=
  ⟨C5_at_most_one_child.1 ⟨false, false, 2, some 0⟩ ⟨1, true, some 0⟩ rfl rfl rfl,
   C5_at_most_one_child.2 [⟨false, false, 1, some 0⟩, ⟨false, false, 2, none⟩]⟩

/-- C6: in `Replace`, a still-alive previous child is force-killed
exactly when it does not exit within the 10-time-unit grace period
after the graceful-termination request, and exits gracefully (is never
force-killed) exactly when it does. -/
theorem C6_grace_period (c : Child) (halive : c.alive = true) :
    ((terminateChild c).2 = TermEvent.forceKilled
      ↔ ¬ ∃ d, c.exitDelay = some d ∧ d ≤ 10)
    ∧ ((terminateChild c).2 = TermEvent.gracefulExit
      ↔ ∃ d, c.exitDelay = some d ∧ d ≤ 10) := by
  unfold terminateChild exitsWithinGrace GRACE_PERIOD
  rw [halive]
  rcases hd : c.exitDelay with _ | d
  · simp [hd]
  · by_cases hle : d ≤ 10 <;> simp [hd, hle]

/-- C6 witness: a child exiting 11 time-units after the request is
force-killed; one exiting after 10 is not. -/
theorem C6_witness :
    (((terminateChild ⟨1, true, some 11⟩).2 = TermEvent.forceKilled
        ↔ ¬ ∃ d, (Child.mk 1 true (some 11)).exitDelay = some d ∧ d ≤ 10)
      ∧ ((terminateChild ⟨1, true, some 11⟩).2 = TermEvent.gracefulExit
        ↔ ∃ d, (Child.mk 1 true (some 11)).exitDelay = some d ∧ d ≤ 10))
    ∧ (((terminateChild ⟨2, true, some 10⟩).2 = TermEvent.forceKilled
        ↔ ¬ ∃ d, (Child.mk 2 true (some 10)).exitDelay = some d ∧ d ≤ 10)
      ∧ ((terminateChild ⟨2, true, some 10⟩).2 = TermEvent.gracefulExit
        ↔ ∃ d, (Child.mk 2 true (some 10)).exitDelay = some d ∧ d ≤ 10)) :=
  ⟨C6_grace_period ⟨1, true, some 11⟩ rfl, C6_grace_period ⟨2, true, some 10⟩ rfl⟩

/-- C3 counterexample: in a cycle whose poll detects a change (title
`"A"`, link present) but whose manifest fetch suffers a transport
failure, the error escapes `install_external_libs` and is only caught
at the loop boundary: the update is aborted — no payload fetch, no
child replacement (`bot_proc` stays `none`), no fingerprint commit —
contradicting the claim that the update still proceeds. -/
theorem C3_counterexample :
    cycleStep { last_title := none, bot_proc := none }
        { pageFetch := PageFetch.response 200 ⟨some "A", some "bot.txt"⟩
        , install := { manifestFetch := TextFetch.transportError
                     , stdInstallOk := true, targetInstallOk := true }
        , payloadFetch := TextFetch.response 200 "code"
        , bot := { writeFails := false, launchFails := false
                 , newPid := 1, newExitDelay := some 0 } }
      = { state := { last_title := none, bot_proc := none }
        , triggered := true, committed := false
        , errorCaught := true, events := [] } := by
  decide

/-- C3 (amended): a failure of the manifest installation step aborts
that cycle's update — the error is caught at the loop boundary, the
payload is not fetched, the child is not replaced and the fingerprint
is not committed, so the same change is retried next cycle. Only a
failure of the standard pip install is fail-soft inside
`install_external_libs`: it is retried into the local target
directory. -/
theorem C3_manifest_failure_aborts_update :
    (∀ (s : LoopState) (i : CycleInput) (html : Html) (e : InstallErr),
        fetch_page i.pageFetch = Except.ok html →
        (pyNe (parse_page html).1 s.last_title && truthy (parse_page html).2) = true →
        install_external_libs i.install = Except.error e →
        cycleStep s i = { state := s, triggered := true, committed := false
                        , errorCaught := true, events := [] })
    ∧ (∀ (mi : InstallInput) (t : String),
        get_raise_for_status mi.manifestFetch = Except.ok t →
        mi.stdInstallOk = false → mi.targetInstallOk = true →
        install_external_libs mi = Except.ok ()) := by
  constructor
  · intro s i html e hf hc hi
    unfold cycleStep
    rw [hf]
    dsimp only
    rw [hc]
    simp only [if_true]
    rw [hi]
  · intro mi t hget hstd htgt
    unfold install_external_libs
    rw [hget]
    dsimp only
    split
    · rfl
    · simp [hstd, htgt]

/-- C3 witness: the counterexample cycle derived through the amended
theorem, and an `install_external_libs` run whose standard install
fails but whose `--target` fallback succeeds. -/
theorem C3_witness :
    cycleStep { last_title := none, bot_proc := none }
        { pageFetch := PageFetch.response 200 ⟨some "B", some "r"⟩
        , install := { manifestFetch := TextFetch.response 404 "x"
                     , stdInstallOk := true, targetInstallOk := true }
        , payloadFetch := TextFetch.response 200 "code"
        , bot := { writeFails := false, launchFails := false
                 , newPid := 1, newExitDelay := some 0 } }
      = { state := { last_title := none, bot_proc := none }
        , triggered := true, committed := false
        , errorCaught := true, events := [] }
    ∧ install_external_libs { manifestFetch := TextFetch.response 200 "requests"
                            , stdInstallOk := false, targetInstallOk := true }
      = Except.ok () :=
  ⟨C3_manifest_failure_aborts_update.1 _ _ ⟨some "B", some "r"⟩
      (InstallErr.net (NetErr.httpStatus 404)) rfl (by decide) rfl,
   C3_manifest_failure_aborts_update.2 _ "requests" rfl rfl rfl⟩

/-- C7 counterexample: on a termination signal with a live child that
ignores the graceful request (`exitDelay = none`), the shutdown path
of the code never force-kills: the loop exits with the child still
alive, contradicting the claimed wait-then-force-kill policy. -/
theorem C7_counterexample :
    (mainStep ⟨some "A", some ⟨1, true, none⟩⟩ LoopEvent.interrupt).continues = false
    ∧ (mainStep ⟨some "A", some ⟨1, true, none⟩⟩
        LoopEvent.interrupt).forceKilledOnShutdown = false
    ∧ (mainStep ⟨some "A", some ⟨1, true, none⟩⟩ LoopEvent.interrupt).state.bot_proc
        = some ⟨1, true, none⟩ := by
  decide

/-- C7 (amended): on a termination signal the loop enters shutdown and
requests graceful termination of a still-alive child, then exits
immediately: it never waits out the grace period and never
force-kills; a live child that honours the request eventually exits,
one that ignores it remains alive after the supervisor exits. -/
theorem C7_shutdown_terminate_only (s : LoopState) :
    (mainStep s LoopEvent.interrupt).continues = false
    ∧ (mainStep s LoopEvent.interrupt).forceKilledOnShutdown = false
    ∧ (∀ c, s.bot_proc = some c → c.alive = true → c.exitDelay = none →
        (mainStep s LoopEvent.interrupt).state.bot_proc = some c)
    ∧ (∀ c d, s.bot_proc = some c → c.alive = true → c.exitDelay = some d →
        (mainStep s LoopEvent.interrupt).state.bot_proc
          = some { c with alive := false }) := by
  have hkill : ∀ c : Child, (shutdownChild c).2 = false := by
    intro c
    unfold shutdownChild
    split
    · rcases c.exitDelay with _ | d <;> rfl
    · rfl
  rcases hb : s.bot_proc with _ | c
  · refine ⟨?_, ?_, ?_, ?_⟩ <;> simp [mainStep, hb]
  · refine ⟨?_, ?_, ?_, ?_⟩
    · simp [mainStep, hb]
    · simp [mainStep, hb, hkill]
    · intro c' hc' halive hdelay
      injection hc' with hc'
      subst hc'
      simp [mainStep, hb, shutdownChild, halive, hdelay]
    · intro c' d hc' halive hdelay
      injection hc' with hc'
      subst hc'
      simp [mainStep, hb, shutdownChild, halive, hdelay]

/-- C7 witness: shutdown with a live child that honours SIGTERM:
the loop stops, no force-kill happens, the child winds down. -/
theorem C7_witness :
    (mainStep ⟨none, some ⟨3, true, some 2⟩⟩ LoopEvent.interrupt).continues = false
    ∧ (mainStep ⟨none, some ⟨3, true, some 2⟩⟩
        LoopEvent.interrupt).forceKilledOnShutdown = false
    ∧ (mainStep ⟨none, some ⟨3, true, some 2⟩⟩ LoopEvent.interrupt).state.bot_proc
        = some ⟨3, false, some 2⟩ :=
  ⟨(C7_shutdown_terminate_only ⟨none, some ⟨3, true, some 2⟩⟩).1,
   (C7_shutdown_terminate_only ⟨none, some ⟨3, true, some 2⟩⟩).2.1,
   (C7_shutdown_terminate_only ⟨none, some ⟨3, true, some 2⟩⟩).2.2.2
     ⟨3, true, some 2⟩ 2 rfl rfl rfl⟩

/-- C8 counterexample: environment provisioning IS fatal in one case:
when `./myenv` already exists as a directory (so `_try_create_venv`
reports success without creating anything) but the venv's python
binary is missing, `ensure_env_and_reexec` raises the uncaught
`RuntimeError` of line 72 instead of escalating to local-target
mode. -/
theorem C8_counterexample :
    ensure_env_and_reexec
        { insideVenv := false, venvDirExists := true, stdlibVenvOk := false
        , virtualenvOk := false, venvPyExists := false, sysPath := [] }
      = ProvisionOutcome.fatal := by
  decide

/-- C8 (amended): whenever isolated-environment creation fails through
all fallback strategies (stdlib venv, then virtualenv), provisioning
escalates to local-target mode — prepending the local dependency
directory to the module search path when absent — and returns normally;
but provisioning is not never-fatal: it raises a `RuntimeError` when
environment creation reports success while the environment's
interpreter binary is absent. -/
theorem C8_local_target_escalation :
    (∀ (e : EnvState), e.insideVenv = false → _try_create_venv e = false →
        ensure_env_and_reexec e
          = ProvisionOutcome.localTarget (_activate_local_target_site e.sysPath))
    ∧ (∀ (sp : List String), LOCAL_DEPS ∉ sp →
        _activate_local_target_site sp = LOCAL_DEPS :: sp) := by
  constructor
  · intro e h1 h2
    simp [ensure_env_and_reexec, h1, h2]
  · intro sp hsp
    simp [_activate_local_target_site, hsp]

/-- C8 witness: both isolation strategies fail (and no stale venv dir
exists): provisioning returns the local-target outcome with the deps
directory prepended to the search path. -/
theorem C8_witness :
    ensure_env_and_reexec
        { insideVenv := false, venvDirExists := false, stdlibVenvOk := false
        , virtualenvOk := false, venvPyExists := false, sysPath := ["site"] }
      = ProvisionOutcome.localTarget (_activate_local_target_site ["site"])
    ∧ _activate_local_target_site ["site"] = LOCAL_DEPS :: ["site"] :=
  ⟨C8_local_target_escalation.1
      { insideVenv := false, venvDirExists := false, stdlibVenvOk := false
      , virtualenvOk := false, venvPyExists := false, sysPath := ["site"] }
      rfl rfl,
   C8_local_target_escalation.2 ["site"] (by decide)⟩

/-! ## Lemmas for the error-isolation claim -/

lemma run_bot_raised_cases (i : RunBotInput) (old : Option Child)
    (hr : (run_bot i old).raised = true) :
    (i.writeFails = true ∧ (run_bot i old).oldAfter = old)
    ∨ (i.writeFails = false ∧ i.launchFails = true
        ∧ (run_bot i old).oldAfter
            = Option.map (fun c => (terminateChild c).1) old) := by
  rcases hw : i.writeFails
  · rcases hl : i.launchFails
    · exfalso
      cases old <;> simp [run_bot, hw, hl] at hr
    · right
      exact ⟨rfl, rfl, run_bot_oldAfter i old hw⟩
  · left
    exact ⟨rfl, by simp [run_bot, hw]⟩

/-- C9 counterexample: a cycle in which the update is triggered and the
child-launch step (`Popen`) fails AFTER the previously-alive child
(pid 1) was terminated: the error is caught at the loop boundary, yet
the current child HAS been terminated by that error — contradicting
the claim that the current child is never terminated by an error
caught during Polling/Updating. -/
theorem C9_counterexample :
    (cycleStep ⟨some "A", some ⟨1, true, none⟩⟩
        { pageFetch := PageFetch.response 200 ⟨some "B", some "bot.txt"⟩
        , install := { manifestFetch := TextFetch.response 200 ""
                     , stdInstallOk := true, targetInstallOk := true }
        , payloadFetch := TextFetch.response 200 "code"
        , bot := { writeFails := false, launchFails := true
                 , newPid := 2, newExitDelay := some 0 } }).errorCaught = true
    ∧ (cycleStep ⟨some "A", some ⟨1, true, none⟩⟩
        { pageFetch := PageFetch.response 200 ⟨some "B", some "bot.txt"⟩
        , install := { manifestFetch := TextFetch.response 200 ""
                     , stdInstallOk := true, targetInstallOk := true }
        , payloadFetch := TextFetch.response 200 "code"
        , bot := { writeFails := false, launchFails := true
                 , newPid := 2, newExitDelay := some 0 } }).state.bot_proc
      = some ⟨1, false, none⟩ := by
  decide

/-- C9 (amended): every error raised during the Polling or Updating
work of a cycle (other than the shutdown signal) is caught at the loop
boundary; the cycle commits nothing, sleeps the fixed interval and the
loop continues; the loop state's fingerprint is unchanged, and the
current child is untouched — except that an error at the child-launch
step of `run_bot` is raised after the previous child has already been
terminated, leaving `bot_proc` naming that terminated child. -/
theorem C9_error_isolation (s : LoopState) (i : CycleInput)
    (herr : (cycleStep s i).errorCaught = true) :
    (cycleStep s i).committed = false
    ∧ (cycleStep s i).state.last_title = s.last_title
    ∧ (mainStep s (LoopEvent.cycle i)).continues = true
    ∧ (mainStep s (LoopEvent.cycle i)).sleptFor = some CHECK_INTERVAL
    ∧ ((cycleStep s i).state.bot_proc = s.bot_proc
       ∨ (i.bot.writeFails = false ∧ i.bot.launchFails = true
          ∧ (cycleStep s i).state.bot_proc
              = Option.map (fun c => (terminateChild c).1) s.bot_proc)) := by
  have hmain1 : (mainStep s (LoopEvent.cycle i)).continues = true := by
    simp [mainStep]
  have hmain2 : (mainStep s (LoopEvent.cycle i)).sleptFor = some CHECK_INTERVAL := by
    simp [mainStep]
  rcases hf : fetch_page i.pageFetch with e | html
  · have heq : cycleStep s i
        = { state := s, triggered := false, committed := false
          , errorCaught := true, events := [] } := by
      unfold cycleStep
      rw [hf]
    rw [heq]
    exact ⟨rfl, rfl, hmain1, hmain2, Or.inl rfl⟩
  · by_cases hc : (pyNe (parse_page html).1 s.last_title
        && truthy (parse_page html).2) = true
    · rcases hi : install_external_libs i.install with ei | u
      · have heq : cycleStep s i
            = { state := s, triggered := true, committed := false
              , errorCaught := true, events := [] } := by
          unfold cycleStep
          rw [hf]
          dsimp only
          rw [hc]
          simp only [if_true]
          rw [hi]
        rw [heq]
        exact ⟨rfl, rfl, hmain1, hmain2, Or.inl rfl⟩
      · rcases hp : get_raise_for_status i.payloadFetch with ep | txt
        · have heq : cycleStep s i
              = { state := s, triggered := true, committed := false
                , errorCaught := true, events := [] } := by
            unfold cycleStep
            rw [hf]
            dsimp only
            rw [hc]
            simp only [if_true]
            rw [hi, hp]
          rw [heq]
          exact ⟨rfl, rfl, hmain1, hmain2, Or.inl rfl⟩
        · rcases hr : (run_bot i.bot s.bot_proc).raised
          · exfalso
            have heq : (cycleStep s i).errorCaught = false := by
              unfold cycleStep
              rw [hf]
              dsimp only
              rw [hc]
              simp only [if_true]
              rw [hi, hp]
              dsimp only
              rw [hr]
              rfl
            rw [herr] at heq
            exact Bool.noConfusion heq
          · have heq : cycleStep s i
                = { state := { s with bot_proc := (run_bot i.bot s.bot_proc).oldAfter }
                  , triggered := true, committed := false
                  , errorCaught := true
                  , events := (run_bot i.bot s.bot_proc).events } := by
              unfold cycleStep
              rw [hf]
              dsimp only
              rw [hc]
              simp only [if_true]
              rw [hi, hp]
              dsimp only
              rw [hr]
              rfl
            rw [heq]
            refine ⟨rfl, rfl, hmain1, hmain2, ?_⟩
            rcases run_bot_raised_cases i.bot s.bot_proc hr with ⟨hw, ho⟩ | ⟨hw, hl, ho⟩
            · exact Or.inl (by rw [ho])
            · exact Or.inr ⟨hw, hl, by rw [ho]⟩
    · exfalso
      have heq : (cycleStep s i).errorCaught = false := by
        unfold cycleStep
        rw [hf]
        dsimp only
        rw [Bool.not_eq_true] at hc
        rw [hc]
        rfl
      rw [herr] at heq
      exact Bool.noConfusion heq

/-- C9 witness: a transport failure during Polling, with a live child:
the error is caught, nothing is committed, the loop sleeps the fixed
interval and continues, and the child is untouched. -/
theorem C9_witness :
    (cycleStep ⟨some "A", some ⟨1, true, some 0⟩⟩
        { pageFetch := PageFetch.transportError
        , install := { manifestFetch := TextFetch.response 200 ""
                     , stdInstallOk := true, targetInstallOk := true }
        , payloadFetch := TextFetch.response 200 "code"
        , bot := { writeFails := false, launchFails := false
                 , newPid := 2, newExitDelay := some 0 } }).committed = false
    ∧ (cycleStep ⟨some "A", some ⟨1, true, some 0⟩⟩
        { pageFetch := PageFetch.transportError
        , install := { manifestFetch := TextFetch.response 200 ""
                     , stdInstallOk := true, targetInstallOk := true }
        , payloadFetch := TextFetch.response 200 "code"
        , bot := { writeFails := false, launchFails := false
                 , newPid := 2, newExitDelay := some 0 } }).state.last_title
      = some "A"
    ∧ (mainStep ⟨some "A", some ⟨1, true, some 0⟩⟩ (LoopEvent.cycle
        { pageFetch := PageFetch.transportError
        , install := { manifestFetch := TextFetch.response 200 ""
                     , stdInstallOk := true, targetInstallOk := true }
        , payloadFetch := TextFetch.response 200 "code"
        , bot := { writeFails := false, launchFails := false
                 , newPid := 2, newExitDelay := some 0 } })).continues = true
    ∧ (mainStep ⟨some "A", some ⟨1, true, some 0⟩⟩ (LoopEvent.cycle
        { pageFetch := PageFetch.transportError
        , install := { manifestFetch := TextFetch.response 200 ""
                     , stdInstallOk := true, targetInstallOk := true }
        , payloadFetch := TextFetch.response 200 "code"
        , bot := { writeFails := false, launchFails := false
                 , newPid := 2, newExitDelay := some 0 } })).sleptFor
      = some CHECK_INTERVAL
    ∧ ((cycleStep ⟨some "A", some ⟨1, true, some 0⟩⟩
        { pageFetch := PageFetch.transportError
        , install := { manifestFetch := TextFetch.response 200 ""
                     , stdInstallOk := true, targetInstallOk := true }
        , payloadFetch := TextFetch.response 200 "code"
        , bot := { writeFails := false, launchFails := false
                 , newPid := 2, newExitDelay := some 0 } }).state.bot_proc
        = some ⟨1, true, some 0⟩
       ∨ (false = false ∧ false = true
          ∧ (cycleStep ⟨some "A", some ⟨1, true, some 0⟩⟩
              { pageFetch := PageFetch.transportError
              , install := { manifestFetch := TextFetch.response 200 ""
                           , stdInstallOk := true, targetInstallOk := true }
              , payloadFetch := TextFetch.response 200 "code"
              , bot := { writeFails := false, launchFails := false
                       , newPid := 2, newExitDelay := some 0 } }).state.bot_proc
            = Option.map (fun c => (terminateChild c).1) (some ⟨1, true, some 0⟩))) :=
  C9_error_isolation ⟨some "A", some ⟨1, true, some 0⟩⟩
    { pageFetch := PageFetch.transportError
    , install := { manifestFetch := TextFetch.response 200 ""
                 , stdInstallOk := true, targetInstallOk := true }
    , payloadFetch := TextFetch.response 200 "code"
    , bot := { writeFails := false, launchFails := false
             , newPid := 2, newExitDelay := some 0 } } rfl

end Monitor
